import Mathlib

/-
Verification of the three-stage realtime speech-to-text pipeline
(realtime_stt.py, class RealtimeSTT) against its design specification.

The module is embedded shallowly:
  * `processAudio` models the Recognition Stage worker loop
    `RealtimeSTT._process_audio` (lines 62-75).  The worker reads the
    shared `self.running` flag at the top of every iteration; those reads
    are modelled as a schedule `List Bool`.  `audio_queue.get(timeout=2)`
    returns the head of the pending FIFO queue when one is available and
    raises `queue.Empty` (a timeout) when the queue is empty.  The Vosk
    recognizer is a parameter: a state machine whose `AcceptWaveform`
    call always leaves a post-call state and either reports whether an
    utterance boundary was reached or raises (any exception thrown inside
    the try block, including `Result()`/`json.loads` failures, is folded
    into the `Except.error` outcome of the step).
  * `outputProcessor` models the Dispatch Stage worker loop
    `RealtimeSTT._output_processor` (lines 77-87) the same way; the
    consumer callback may raise.
  * `audioCallback` models the Capture Stage handler
    `RealtimeSTT._audio_callback` (lines 55-60).
  * `Sys`, `start`, `stop`, `construct` and `startup` model the lifecycle
    (`__init__` lines 22-38, `start` lines 89-108, `stop` lines 110-116,
    and `main`'s construct-then-start sequence), as action traces plus a
    resource-counting state.
Both worker loops return the full event trace they produce, so ordering,
filtering and fault-isolation properties are statements about traces.
-/

namespace RealtimeSTT

/-- One fixed-duration chunk of raw PCM bytes as delivered by the device;
`bytes(indata)` in the source. -/
abbrev AudioBlock := List UInt8

/-- The JSON object returned by `recognizer.Result()` after an utterance
boundary: the `text` field may be absent (`none`). -/
structure RecJson where
  text : Option String
deriving Repr, DecidableEq

/-- Python `result.get('text', '')`: the text field, defaulting to the empty
string when the key is absent (realtime_stt.py line 69). -/
def RecJson.textOrEmpty (r : RecJson) : String :=
  r.text.getD ""

/-- Python `str.strip()` with no argument (realtime_stt.py line 69): the
string with leading and trailing whitespace removed. -/
def pyStrip (s : String) : String :=
  ⟨((s.data.dropWhile Char.isWhitespace).reverse.dropWhile Char.isWhitespace).reverse⟩

/-- The recognizer engine as `_process_audio` uses it.  `acceptWaveform`
models one `AcceptWaveform` call: it always yields the recognizer's
post-call state together with either the boundary flag (`Except.ok`) or a
raised exception (`Except.error`).  `result` models the `Result()` +
`json.loads` extraction performed when a boundary was reached. -/
structure Recognizer (σ : Type) where
  acceptWaveform : σ → AudioBlock → σ × Except String Bool
  result : σ → σ × RecJson

/-- Observable events of one Recognition Stage loop iteration. -/
inductive RecEvent where
  | acceptCall (b : AudioBlock)
  | boundary (j : RecJson)
  | enqueueResult (t : String)
  | logError (e : String)
  | timeout
deriving Repr, DecidableEq

/-- Outcome of running the Recognition Stage loop over a flag-read schedule:
the event trace, the recognizer's final state, and the audio blocks still
sitting on the Audio Queue when the loop exits. -/
structure RecRun (σ : Type) where
  events : List RecEvent
  finalState : σ
  remaining : List AudioBlock

/-- `RealtimeSTT._process_audio` (lines 62-75).  Each iteration reads the
running flag (head of the schedule); when false the loop exits at once
(also when the schedule is exhausted, which ends the observation window
the same way).  When true, an empty queue makes `get(timeout=2)` raise
`queue.Empty`, which is swallowed and the loop continues.  Otherwise the
head block is fed to `AcceptWaveform`; on an exception the error is
logged and the loop continues; on a boundary the result text is enqueued
onto the Result Queue exactly when it is non-empty after stripping. -/
def processAudio {σ : Type} (rec : Recognizer σ) :
    List Bool → σ → List AudioBlock → RecRun σ
  | [], s, q => ⟨[], s, q⟩
  | false :: _, s, q => ⟨[], s, q⟩
  | true :: fs, s, [] =>
      let r := processAudio rec fs s []
      ⟨.timeout :: r.events, r.finalState, r.remaining⟩
  | true :: fs, s, b :: q =>
      match rec.acceptWaveform s b with
      | (s', .error e) =>
          let r := processAudio rec fs s' q
          ⟨.acceptCall b :: .logError e :: r.events, r.finalState, r.remaining⟩
      | (s', .ok false) =>
          let r := processAudio rec fs s' q
          ⟨.acceptCall b :: r.events, r.finalState, r.remaining⟩
      | (s', .ok true) =>
          match rec.result s' with
          | (s2, j) =>
              if pyStrip j.textOrEmpty == "" then
                let r := processAudio rec fs s2 q
                ⟨.acceptCall b :: .boundary j :: r.events, r.finalState, r.remaining⟩
              else
                let r := processAudio rec fs s2 q
                ⟨.acceptCall b :: .boundary j :: .enqueueResult j.textOrEmpty :: r.events,
                  r.finalState, r.remaining⟩

/-- The blocks passed to `AcceptWaveform`, in call order. -/
def acceptCalls : List RecEvent → List AudioBlock
  | [] => []
  | .acceptCall b :: es => b :: acceptCalls es
  | .boundary _ :: es => acceptCalls es
  | .enqueueResult _ :: es => acceptCalls es
  | .logError _ :: es => acceptCalls es
  | .timeout :: es => acceptCalls es

/-- The text fields of all utterance-boundary results, in order. -/
def boundaryTexts : List RecEvent → List String
  | [] => []
  | .acceptCall _ :: es => boundaryTexts es
  | .boundary j :: es => j.textOrEmpty :: boundaryTexts es
  | .enqueueResult _ :: es => boundaryTexts es
  | .logError _ :: es => boundaryTexts es
  | .timeout :: es => boundaryTexts es

/-- The strings pushed onto the Result Queue, in order. -/
def enqueuedResults : List RecEvent → List String
  | [] => []
  | .acceptCall _ :: es => enqueuedResults es
  | .boundary _ :: es => enqueuedResults es
  | .enqueueResult t :: es => t :: enqueuedResults es
  | .logError _ :: es => enqueuedResults es
  | .timeout :: es => enqueuedResults es

/-- The per-block errors logged by the Recognition Stage, in order. -/
def errorLogs : List RecEvent → List String
  | [] => []
  | .acceptCall _ :: es => errorLogs es
  | .boundary _ :: es => errorLogs es
  | .enqueueResult _ :: es => errorLogs es
  | .logError e :: es => e :: errorLogs es
  | .timeout :: es => errorLogs es

/-- Observable events of one Dispatch Stage loop iteration. -/
inductive DispEvent where
  | callbackCall (t : String)
  | cbError (e : String)
  | timeout
deriving Repr, DecidableEq

/-- Outcome of running the Dispatch Stage loop: its event trace and the
results still sitting on the Result Queue when the loop exits. -/
structure DispRun where
  events : List DispEvent
  remaining : List String
deriving Repr, DecidableEq

/-- `RealtimeSTT._output_processor` (lines 77-87): same flag-schedule loop
shape as the Recognition Stage; each dequeued text is handed to the
consumer callback; a raising callback is logged and the loop continues. -/
def outputProcessor (cb : String → Except String Unit) :
    List Bool → List String → DispRun
  | [], rs => ⟨[], rs⟩
  | false :: _, rs => ⟨[], rs⟩
  | true :: fs, [] =>
      let r := outputProcessor cb fs []
      ⟨.timeout :: r.events, r.remaining⟩
  | true :: fs, t :: rs =>
      match cb t with
      | .ok _ =>
          let r := outputProcessor cb fs rs
          ⟨.callbackCall t :: r.events, r.remaining⟩
      | .error e =>
          let r := outputProcessor cb fs rs
          ⟨.callbackCall t :: .cbError e :: r.events, r.remaining⟩

/-- The strings the consumer callback was invoked with, in order. -/
def callbackCalls : List DispEvent → List String
  | [] => []
  | .callbackCall t :: es => t :: callbackCalls es
  | .cbError _ :: es => callbackCalls es
  | .timeout :: es => callbackCalls es

/-- The callback errors logged by the Dispatch Stage, in order. -/
def cbErrorLogs : List DispEvent → List String
  | [] => []
  | .callbackCall _ :: es => cbErrorLogs es
  | .cbError e :: es => e :: cbErrorLogs es
  | .timeout :: es => cbErrorLogs es

/-- How many queue items a worker loop dequeues, given its flag-read
schedule and the number of items available: one item per true flag read
while items remain; a false read stops the loop. -/
def popCount : List Bool → Nat → Nat
  | [], _ => 0
  | false :: _, _ => 0
  | true :: fs, 0 => popCount fs 0
  | true :: fs, n + 1 => popCount fs n + 1

/-- What the Capture Stage handler does with one device-delivered block. -/
structure CaptureEffect where
  warnings : List String
  enqueued : List AudioBlock
  deviceStopped : Bool
deriving Repr, DecidableEq

/-- `RealtimeSTT._audio_callback` (lines 55-60): a non-empty stream status
is logged as a warning; the block's bytes are copied and enqueued onto
the Audio Queue exactly when `self.running` is true; the handler never
touches the device. -/
def audioCallback (running : Bool) (status : Option String) (indata : AudioBlock) :
    CaptureEffect :=
  let ws := match status with
    | some st => ["Audio stream status: " ++ st]
    | none => []
  if running then ⟨ws, [indata], false⟩ else ⟨ws, [], false⟩

/-- `self.block_size = 8000` (line 23): the fixed capture block size in
frames. -/
def blockSize : Nat := 8000

/-- Externally visible lifecycle actions of the controller. -/
inductive Action where
  | createAudioQueue
  | createResultQueue
  | loadModel
  | createRecognizer
  | exitProcess (code : Nat)
  | openDevice (sampleRate blockFrames : Nat)
  | startDevice
  | launchRecognitionWorker
  | launchDispatchWorker
  | setRunning (b : Bool)
  | stopDevice
  | closeDevice
  | joinWorker
deriving Repr, DecidableEq

/-- Controller-side resource state: the running flag, whether the `stream`
attribute exists (Python `hasattr(self, 'stream')` — it is set by
`start()` and never removed), and how often each device operation has
been invoked. -/
structure Sys where
  running : Bool
  hasStream : Bool
  openCalls : Nat
  streamStartCalls : Nat
  streamStopCalls : Nat
  streamCloseCalls : Nat
deriving Repr, DecidableEq

/-- State of a freshly constructed `RealtimeSTT` object. -/
def initialSys : Sys :=
  ⟨false, false, 0, 0, 0, 0⟩

/-- `RealtimeSTT.start` (lines 89-108): sets `self.running = True`, then
constructs `sd.RawInputStream` with the configured sample rate and the
fixed block size, registering `_audio_callback` as its handler, starts
the stream, then launches the two daemon worker threads.  It returns
without joining anything. -/
def start (sampleRate : Nat) (s : Sys) : Sys × List Action :=
  let s1 := { s with running := true }
  let s2 := { s1 with hasStream := true, openCalls := s1.openCalls + 1 }
  let s3 := { s2 with streamStartCalls := s2.streamStartCalls + 1 }
  (s3,
   [.setRunning true, .openDevice sampleRate blockSize, .startDevice,
    .launchRecognitionWorker, .launchDispatchWorker])

/-- `RealtimeSTT.stop` (lines 110-116): sets `self.running = False`; then,
whenever the `stream` attribute exists, unconditionally calls
`self.stream.stop()` and `self.stream.close()`.  Nothing ever removes
the attribute, so every call after `start()` re-invokes both. -/
def stop (s : Sys) : Sys × List Action :=
  let s1 := { s with running := false }
  if s1.hasStream then
    ({ s1 with streamStopCalls := s1.streamStopCalls + 1,
               streamCloseCalls := s1.streamCloseCalls + 1 },
     [.setRunning false, .stopDevice, .closeDevice])
  else
    (s1, [.setRunning false])

/-- Outcome of a lifecycle phase: the surviving object state (`none` when
the phase ended in a `SystemExit`), the action trace, and the exit code
in effect when the phase ends (`none` while the process keeps running).
For `construct` the code is the one carried by the `SystemExit` the
constructor raised; for `startup` it is the process exit code after
`main`'s `finally` clause has run. -/
structure Boot where
  sys : Option Sys
  trace : List Action
  exitCode : Option Nat
deriving Repr, DecidableEq

/-- `RealtimeSTT.__init__` (lines 22-38): creates the Audio Queue and the
Result Queue, then loads the Vosk model and builds the recognizer; when
that raises, the error is printed and the constructor calls
`sys.exit(1)`, raising `SystemExit(1)`. -/
def construct (modelLoad : Except String Unit) : Boot :=
  match modelLoad with
  | .error _ =>
      ⟨none, [.createAudioQueue, .createResultQueue, .loadModel, .exitProcess 1], some 1⟩
  | .ok _ =>
      ⟨some initialSys,
       [.createAudioQueue, .createResultQueue, .loadModel, .createRecognizer], none⟩

/-- The startup phase as `main` (lines 118-148) performs it: construct the
`RealtimeSTT` object, then call `start()` on it.  When construction
raises `SystemExit(1)`, `start()` is never reached and the `except
KeyboardInterrupt` handler does not catch the exception; but `main`'s
`finally` block runs: `'stt' in locals()` is false (the assignment never
completed), so `stop()` is not called, and its `sys.exit(0)` (line 148)
raises `SystemExit(0)` inside the `finally`, replacing the in-flight
`SystemExit(1)` — the process therefore exits with code 0.  On success
the phase ends with `start()` returning, the interactive loop (and the
eventual `finally`) lying outside this phase. -/
def startup (modelLoad : Except String Unit) (sampleRate : Nat) : Boot :=
  match construct modelLoad with
  | ⟨none, tr, _⟩ => ⟨none, tr ++ [.exitProcess 0], some 0⟩
  | ⟨some s, tr, _⟩ =>
      let p := start sampleRate s
      ⟨some p.1, tr ++ p.2, none⟩

/-- The start sequence exactly as the specification sentence orders it
(spec §4.1): construct both queues, open the device (registering the
handler), set the running flag to true, then launch the two workers.
Named after the spec's wording, for comparison with the trace of
`start`. -/
def claimedStartTrace (sampleRate : Nat) : List Action :=
  [.createAudioQueue, .createResultQueue, .openDevice sampleRate blockSize,
   .setRunning true, .launchRecognitionWorker, .launchDispatchWorker]

/-- Scripted behaviour for a mock recognizer: on its nth `AcceptWaveform`
call it stays silent, reports an utterance boundary, or raises. -/
inductive ScriptEntry where
  | silent
  | boundary (j : RecJson)
  | raiseErr (e : String)
deriving Repr, DecidableEq

/-- A mock recognizer driven by a script; its state is the number of
`AcceptWaveform` calls made so far. -/
def scriptRec (script : List ScriptEntry) : Recognizer Nat :=
  { acceptWaveform := fun n _ =>
      (n + 1,
       match script.getD n .silent with
       | .silent => .ok false
       | .boundary _ => .ok true
       | .raiseErr e => .error e)
    result := fun n =>
      (n,
       match script.getD (n - 1) .silent with
       | .boundary j => j
       | _ => ⟨none⟩) }

/-- A one-byte audio block, for concrete runs. -/
def blk (i : Nat) : AudioBlock :=
  [UInt8.ofNat i]

/-- Five audio blocks for the fault-injection scenario of spec §8. -/
def blocks5 : List AudioBlock :=
  [blk 1, blk 2, blk 3, blk 4, blk 5]

/-- Fault-injection script from spec §8: the recognizer fails on block 3 of
5 and succeeds on blocks 1, 2, 4, 5 (the last two reaching utterance
boundaries). -/
def faultyScript : List ScriptEntry :=
  [.silent, .silent, .raiseErr "decoder failure",
   .boundary ⟨some "four"⟩, .boundary ⟨some "five"⟩]

/-- A script whose single boundary text carries leading and trailing
whitespace, to observe whether the pipeline trims it. -/
def wsScript : List ScriptEntry :=
  [.boundary ⟨some "  hello  "⟩]

/-- Scenario script from spec §8: three blocks, block 2 reaching a boundary
with text "hello world" and block 3 a boundary with empty text. -/
def scenarioScript : List ScriptEntry :=
  [.silent, .boundary ⟨some "hello world"⟩, .boundary ⟨some ""⟩]

/-- A consumer callback that raises on the first result text and succeeds
on every other. -/
def throwingCb (t : String) : Except String Unit :=
  if t = "one" then .error "consumer crashed" else .ok ()

/-- A consumer callback that always succeeds. -/
def okCb (_ : String) : Except String Unit :=
  .ok ()

/-- The controller state after `start()` followed by two consecutive
`stop()` calls. -/
def sysAfterDoubleStop : Sys :=
  (stop (stop (start 16000 initialSys).1).1).1

/-- The Recognition Stage feeds `AcceptWaveform` exactly the first
`popCount` blocks of the Audio Queue, in queue order, whatever the
recognizer does on each call. -/
theorem acceptCalls_run {σ : Type} (rec : Recognizer σ) :
    ∀ (flags : List Bool) (s : σ) (q : List AudioBlock),
      acceptCalls (processAudio rec flags s q).events = q.take (popCount flags q.length) := by
  intro flags
  induction flags with
  | nil => intro s q; simp [processAudio, popCount, acceptCalls]
  | cons f fs ih =>
      intro s q
      cases f with
      | false => simp [processAudio, popCount, acceptCalls]
      | true =>
          cases q with
          | nil => simp [processAudio, popCount, acceptCalls, ih]
          | cons b q' =>
              rcases hA : rec.acceptWaveform s b with ⟨s', res⟩
              cases res with
              | error e => simp [processAudio, hA, popCount, acceptCalls, ih]
              | ok bb =>
                  cases bb with
                  | false => simp [processAudio, hA, popCount, acceptCalls, ih]
                  | true =>
                      rcases hR : rec.result s' with ⟨s2, j⟩
                      by_cases hj : pyStrip j.textOrEmpty == "" <;>
                        simp [processAudio, hA, hR, hj, popCount, acceptCalls, ih]

/-- The blocks left on the Audio Queue when the Recognition Stage loop
exits are exactly the ones it never dequeued. -/
theorem remaining_run {σ : Type} (rec : Recognizer σ) :
    ∀ (flags : List Bool) (s : σ) (q : List AudioBlock),
      (processAudio rec flags s q).remaining = q.drop (popCount flags q.length) := by
  intro flags
  induction flags with
  | nil => intro s q; simp [processAudio, popCount]
  | cons f fs ih =>
      intro s q
      cases f with
      | false => simp [processAudio, popCount]
      | true =>
          cases q with
          | nil => simp [processAudio, popCount, ih]
          | cons b q' =>
              rcases hA : rec.acceptWaveform s b with ⟨s', res⟩
              cases res with
              | error e => simp [processAudio, hA, popCount, ih]
              | ok bb =>
                  cases bb with
                  | false => simp [processAudio, hA, popCount, ih]
                  | true =>
                      rcases hR : rec.result s' with ⟨s2, j⟩
                      by_cases hj : pyStrip j.textOrEmpty == "" <;>
                        simp [processAudio, hA, hR, hj, popCount, ih]

/-- What the Recognition Stage pushes onto the Result Queue is exactly the
sequence of boundary texts filtered by "non-empty after stripping". -/
theorem enqueued_filter {σ : Type} (rec : Recognizer σ) :
    ∀ (flags : List Bool) (s : σ) (q : List AudioBlock),
      enqueuedResults (processAudio rec flags s q).events
        = (boundaryTexts (processAudio rec flags s q).events).filter
            (fun t => !(pyStrip t == "")) := by
  intro flags
  induction flags with
  | nil => intro s q; simp [processAudio, enqueuedResults, boundaryTexts]
  | cons f fs ih =>
      intro s q
      cases f with
      | false => simp [processAudio, enqueuedResults, boundaryTexts]
      | true =>
          cases q with
          | nil => simp [processAudio, enqueuedResults, boundaryTexts, ih]
          | cons b q' =>
              rcases hA : rec.acceptWaveform s b with ⟨s', res⟩
              cases res with
              | error e => simp [processAudio, hA, enqueuedResults, boundaryTexts, ih]
              | ok bb =>
                  cases bb with
                  | false => simp [processAudio, hA, enqueuedResults, boundaryTexts, ih]
                  | true =>
                      rcases hR : rec.result s' with ⟨s2, j⟩
                      by_cases hj : pyStrip j.textOrEmpty == "" <;>
                        simp [processAudio, hA, hR, hj, enqueuedResults, boundaryTexts,
                          List.filter_cons, ih]

/-- Once the Recognition Stage loop reads a false running flag, the rest of
the schedule is irrelevant: the run is the same as if the schedule had
ended there. -/
theorem run_false_append {σ : Type} (rec : Recognizer σ) :
    ∀ (flags rest : List Bool) (s : σ) (q : List AudioBlock),
      processAudio rec (flags ++ false :: rest) s q = processAudio rec flags s q := by
  intro flags
  induction flags with
  | nil => intro rest s q; simp [processAudio]
  | cons f fs ih =>
      intro rest s q
      cases f with
      | false => simp [processAudio]
      | true =>
          cases q with
          | nil => simp [processAudio, ih]
          | cons b q' =>
              rcases hA : rec.acceptWaveform s b with ⟨s', res⟩
              cases res with
              | error e => simp [processAudio, hA, ih]
              | ok bb =>
                  cases bb with
                  | false => simp [processAudio, hA, ih]
                  | true =>
                      rcases hR : rec.result s' with ⟨s2, j⟩
                      by_cases hj : pyStrip j.textOrEmpty == "" <;>
                        simp [processAudio, hA, hR, hj, ih]

/-- The Dispatch Stage invokes the consumer callback on exactly the first
`popCount` results of the Result Queue, in queue order, whether or not
the callback raises. -/
theorem callbackCalls_run (cb : String → Except String Unit) :
    ∀ (flags : List Bool) (rs : List String),
      callbackCalls (outputProcessor cb flags rs).events
        = rs.take (popCount flags rs.length) := by
  intro flags
  induction flags with
  | nil => intro rs; simp [outputProcessor, popCount, callbackCalls]
  | cons f fs ih =>
      intro rs
      cases f with
      | false => simp [outputProcessor, popCount, callbackCalls]
      | true =>
          cases rs with
          | nil => simp [outputProcessor, popCount, callbackCalls, ih]
          | cons t rs' =>
              rcases hC : cb t with u | e <;>
                simp [outputProcessor, hC, popCount, callbackCalls, ih]

/-- Results left on the Result Queue when the Dispatch Stage loop exits. -/
theorem disp_remaining (cb : String → Except String Unit) :
    ∀ (flags : List Bool) (rs : List String),
      (outputProcessor cb flags rs).remaining = rs.drop (popCount flags rs.length) := by
  intro flags
  induction flags with
  | nil => intro rs; simp [outputProcessor, popCount]
  | cons f fs ih =>
      intro rs
      cases f with
      | false => simp [outputProcessor, popCount]
      | true =>
          cases rs with
          | nil => simp [outputProcessor, popCount, ih]
          | cons t rs' =>
              rcases hC : cb t with u | e <;>
                simp [outputProcessor, hC, popCount, ih]

/-- Once the Dispatch Stage loop reads a false running flag, the rest of
the schedule is irrelevant. -/
theorem disp_false_append (cb : String → Except String Unit) :
    ∀ (flags rest : List Bool) (rs : List String),
      outputProcessor cb (flags ++ false :: rest) rs = outputProcessor cb flags rs := by
  intro flags
  induction flags with
  | nil => intro rest rs; simp [outputProcessor]
  | cons f fs ih =>
      intro rest rs
      cases f with
      | false => simp [outputProcessor]
      | true =>
          cases rs with
          | nil => simp [outputProcessor, ih]
          | cons t rs' =>
              rcases hC : cb t with u | e <;> simp [outputProcessor, hC, ih]

/-- A schedule of `n` consecutive true flag reads drains an `n`-item
queue completely. -/
theorem popCount_replicate_true :
    ∀ n : Nat, popCount (List.replicate n true) n = n := by
  intro n
  induction n with
  | zero => simp [popCount]
  | succ k ih => simp [List.replicate, popCount, ih]

/-- Claim C1: at every utterance boundary the Recognition Stage enqueues
the result's text onto the Result Queue if and only if it is non-empty
after stripping whitespace (the enqueued sequence is exactly the boundary
texts filtered by that predicate), so everything on the Result Queue —
and hence every string the Dispatch Stage hands to the consumer
callback — is non-empty after stripping; in the spec §8 scenario (block 2
yields "hello world", block 3 an empty text) only "hello world" is
enqueued. -/
theorem result_text_filtering :
    ∀ (σ : Type) (rec : Recognizer σ) (flags : List Bool) (s : σ) (q : List AudioBlock)
      (cb : String → Except String Unit) (fl : List Bool),
      enqueuedResults (processAudio rec flags s q).events
        = (boundaryTexts (processAudio rec flags s q).events).filter
            (fun t => !(pyStrip t == ""))
    ∧ (enqueuedResults (processAudio rec flags s q).events).all
        (fun t => !(pyStrip t == "")) = true
    ∧ (callbackCalls (outputProcessor cb fl
          (enqueuedResults (processAudio rec flags s q).events)).events).all
        (fun t => !(pyStrip t == "")) = true
    ∧ enqueuedResults (processAudio (scriptRec scenarioScript) (List.replicate 3 true) 0
        [blk 1, blk 2, blk 3]).events = ["hello world"] := by
  intro σ rec flags s q cb fl
  have hfil := enqueued_filter rec flags s q
  refine ⟨hfil, ?_, ?_, rfl⟩
  · rw [hfil, List.all_eq_true]
    intro t ht
    exact (List.mem_filter.mp ht).2
  · rw [List.all_eq_true]
    intro t ht
    rw [callbackCalls_run] at ht
    have ht2 := List.take_subset _ _ ht
    rw [hfil] at ht2
    exact (List.mem_filter.mp ht2).2

/-- Claim C2: the Recognition Stage feeds `AcceptWaveform` the audio
blocks in exactly their enqueue order (the processed blocks form a prefix
of the queue, and a long-enough all-true schedule processes every block
exactly once, none duplicated or dropped); symmetrically, the Dispatch
Stage invokes the consumer callback on the finalized results in exactly
their enqueue order. -/
theorem fifo_ordering :
    ∀ (σ : Type) (rec : Recognizer σ) (flags : List Bool) (s : σ) (q : List AudioBlock)
      (cb : String → Except String Unit) (fl : List Bool) (rs : List String),
      acceptCalls (processAudio rec flags s q).events <+: q
    ∧ acceptCalls (processAudio rec (List.replicate q.length true) s q).events = q
    ∧ callbackCalls (outputProcessor cb fl rs).events <+: rs
    ∧ callbackCalls (outputProcessor cb (List.replicate rs.length true) rs).events = rs := by
  intro σ rec flags s q cb fl rs
  refine ⟨?_, ?_, ?_, ?_⟩
  · rw [acceptCalls_run]
    exact List.take_prefix _ _
  · rw [acceptCalls_run, popCount_replicate_true]
    simp
  · rw [callbackCalls_run]
    exact List.take_prefix _ _
  · rw [callbackCalls_run, popCount_replicate_true]
    simp

/-- Claim C3: which blocks the Recognition Stage feeds to `AcceptWaveform`
does not depend on the recognizer at all — a raising call is logged and
the loop continues — so a failing block never terminates the stage; with
the spec §8 fault-injection mock (fails on block 3 of 5) all five blocks
are still processed, the error is logged, and the later boundaries still
produce results. -/
theorem recognition_fault_isolation :
    ∀ (σ1 σ2 : Type) (rec1 : Recognizer σ1) (rec2 : Recognizer σ2)
      (s1 : σ1) (s2 : σ2) (flags : List Bool) (q : List AudioBlock),
      acceptCalls (processAudio rec1 flags s1 q).events
        = acceptCalls (processAudio rec2 flags s2 q).events
    ∧ acceptCalls (processAudio (scriptRec faultyScript) (List.replicate 5 true) 0 blocks5).events
        = blocks5
    ∧ errorLogs (processAudio (scriptRec faultyScript) (List.replicate 5 true) 0 blocks5).events
        = ["decoder failure"]
    ∧ enqueuedResults (processAudio (scriptRec faultyScript)
          (List.replicate 5 true) 0 blocks5).events
        = ["four", "five"] := by
  intro σ1 σ2 rec1 rec2 s1 s2 flags q
  refine ⟨?_, rfl, rfl, rfl⟩
  rw [acceptCalls_run, acceptCalls_run]

/-- Claim C4: which results the Dispatch Stage delivers does not depend on
the consumer callback at all — a raising callback is logged and polling
continues — so a callback that throws on one result never blocks later
results; concretely, a callback throwing on "one" still gets invoked with
"one" and then with "two", and the error is logged. -/
theorem dispatch_fault_isolation :
    ∀ (cb1 cb2 : String → Except String Unit) (fl : List Bool) (rs : List String),
      callbackCalls (outputProcessor cb1 fl rs).events
        = callbackCalls (outputProcessor cb2 fl rs).events
    ∧ callbackCalls (outputProcessor throwingCb (List.replicate 2 true) ["one", "two"]).events
        = ["one", "two"]
    ∧ cbErrorLogs (outputProcessor throwingCb (List.replicate 2 true) ["one", "two"]).events
        = ["consumer crashed"] := by
  intro cb1 cb2 fl rs
  refine ⟨?_, rfl, rfl⟩
  rw [callbackCalls_run, callbackCalls_run]

/-- Claim C5 names a code bug: when the recognizer engine fails to
initialize, the constructor raises `SystemExit(1)` (line 35) — the
intended fatal non-zero exit — and the audio capture device is indeed
never opened or started, `start()` never reached, `stop()` never run;
but `main`'s `finally: sys.exit(0)` (line 148) replaces the in-flight
`SystemExit(1)`, so the shipped process actually exits with code 0,
contradicting both the specification and the constructor's own exit
call. -/
theorem model_failure_exit_clobbered :
    ∀ (e : String) (sr sr' bf : Nat),
      (construct (.error e)).exitCode = some 1
    ∧ (startup (.error e) sr).exitCode = some 0
    ∧ ¬ (startup (.error e) sr).exitCode = some 1
    ∧ Action.openDevice sr' bf ∉ (startup (.error e) sr).trace
    ∧ Action.startDevice ∉ (startup (.error e) sr).trace
    ∧ Action.stopDevice ∉ (startup (.error e) sr).trace
    ∧ Action.exitProcess 1 ∈ (startup (.error e) sr).trace
    ∧ Action.exitProcess 0 ∈ (startup (.error e) sr).trace := by
  intro e sr sr' bf
  refine ⟨rfl, rfl, ?_, ?_, ?_, ?_, ?_, ?_⟩ <;> simp [startup, construct]

/-- Claim C6 is false as stated: after `start()`, a second consecutive
`stop()` is not a no-op — the `stream` attribute still exists, so
`stream.stop()` and `stream.close()` are invoked a second time and the
device release runs twice (close count reaches 2, not at most 1). -/
theorem double_stop_releases_twice :
    sysAfterDoubleStop.streamCloseCalls = 2
  ∧ ¬ sysAfterDoubleStop.streamCloseCalls ≤ 1 := by
  refine ⟨by decide, by decide⟩

/-- Claim C6 amended: every `stop()` leaves the running flag false, and
calling `stop()` before any `start()` is a state no-op (no device call is
made); but after `start()` a second `stop()` re-invokes the stream's
`stop`/`close`, releasing the device resource a second time — the code
raises no error itself, yet does not guard against the duplicate
release. -/
theorem stop_behaviour :
    (∀ s : Sys, (stop s).1.running = false)
  ∧ (stop initialSys).1 = initialSys
  ∧ sysAfterDoubleStop.streamStopCalls = 2
  ∧ sysAfterDoubleStop.streamCloseCalls
      = ((stop (start 16000 initialSys).1).1).streamCloseCalls + 1 := by
  refine ⟨?_, by decide, by decide, by decide⟩
  intro s
  by_cases h : s.hasStream <;> simp [stop, h]

/-- Claim C7: the Capture Stage handler enqueues the delivered block's
bytes onto the Audio Queue exactly when the running flag is true at
delivery time and discards the block silently otherwise; a stream-status
warning is logged but changes nothing about enqueueing, and the handler
never stops the device. -/
theorem capture_enqueue_gate :
    ∀ (st : Option String) (d : AudioBlock) (r : Bool) (m : String),
      (audioCallback true st d).enqueued = [d]
    ∧ (audioCallback false st d).enqueued = []
    ∧ (audioCallback r st d).deviceStopped = false
    ∧ (audioCallback r (some m) d).warnings = ["Audio stream status: " ++ m]
    ∧ (audioCallback r (some m) d).enqueued = (audioCallback r none d).enqueued := by
  intro st d r m
  cases r <;> simp [audioCallback]

/-- Claim C8 is false as stated: the action trace of `start()` (and of the
whole startup sequence) differs from the spec's claimed order — `start()`
does not construct the queues at all (the constructor does), and it sets
the running flag before opening the device, not after. -/
theorem start_trace_differs_from_claim :
    (start 16000 initialSys).2 ≠ claimedStartTrace 16000
  ∧ Action.createAudioQueue ∉ (start 16000 initialSys).2
  ∧ (startup (.ok ()) 16000).trace ≠ claimedStartTrace 16000 := by
  refine ⟨by decide, by decide, by decide⟩

/-- Claim C8 amended: `start()` first sets the running flag to true, then
opens the audio device with the configured sample rate and the fixed
block size of 8000 frames (registering the block handler at stream
construction), starts it, then launches the Recognition and Dispatch
workers, and returns without joining them; the Audio Queue and Result
Queue are constructed earlier, by the constructor. -/
theorem start_sequence :
    ∀ (sr : Nat) (s : Sys),
      (start sr s).2
        = [.setRunning true, .openDevice sr blockSize, .startDevice,
           .launchRecognitionWorker, .launchDispatchWorker]
    ∧ Action.joinWorker ∉ (start sr s).2
    ∧ (start sr s).1.running = true
    ∧ Action.createAudioQueue ∈ (construct (.ok ())).trace
    ∧ Action.createResultQueue ∈ (construct (.ok ())).trace := by
  intro sr s
  refine ⟨rfl, ?_, rfl, by decide, by decide⟩
  simp [start]

/-- Claim C9: every string the Dispatch Stage hands to the consumer
callback is verbatim one of the recognizer's boundary text fields —
nothing between the Recognition Stage and the callback modifies it — and
a text with leading and trailing whitespace, "  hello  ", reaches the
callback with that whitespace intact. -/
theorem dispatched_text_unmodified :
    ∀ (σ : Type) (rec : Recognizer σ) (flags : List Bool) (s : σ) (q : List AudioBlock)
      (cb : String → Except String Unit) (fl : List Bool),
      List.Sublist
        (callbackCalls (outputProcessor cb fl
          (enqueuedResults (processAudio rec flags s q).events)).events)
        (boundaryTexts (processAudio rec flags s q).events)
    ∧ callbackCalls (outputProcessor okCb [true]
        (enqueuedResults (processAudio (scriptRec wsScript) [true] 0 [blk 1]).events)).events
        = ["  hello  "] := by
  intro σ rec flags s q cb fl
  refine ⟨?_, rfl⟩
  rw [callbackCalls_run]
  refine List.Sublist.trans (List.take_sublist _ _) ?_
  rw [enqueued_filter]
  exact List.filter_sublist _

/-- Claim C10: once a worker loop reads the running flag as false it stops
immediately — the run over any schedule that contains a false read equals
the run over the schedule truncated there, so no further
`AcceptWaveform` call and no further callback invocation ever happens,
and whatever is still on either queue at that point stays there
unprocessed. -/
theorem flag_false_stops_workers :
    ∀ (σ : Type) (rec : Recognizer σ) (flags rest : List Bool) (s : σ) (q : List AudioBlock)
      (cb : String → Except String Unit) (fl rl : List Bool) (rs : List String),
      processAudio rec (flags ++ false :: rest) s q = processAudio rec flags s q
    ∧ processAudio rec (false :: rest) s q = ⟨[], s, q⟩
    ∧ outputProcessor cb (fl ++ false :: rl) rs = outputProcessor cb fl rs
    ∧ outputProcessor cb (false :: rl) rs = ⟨[], rs⟩ := by
  intro σ rec flags rest s q cb fl rl rs
  exact ⟨run_false_append rec flags rest s q, rfl,
    disp_false_append cb fl rl rs, rfl⟩

end RealtimeSTT
